import Mathlib

/-!
Verification of the websocket protocol client and step orchestrator of the
httprunner repository (`httprunner/websocket/websocket_client.py` and
`httprunner/step_websocket_request.py`), as a shallow embedding in Lean 4.

Python values crossing the client API are modelled by `PyValue`; the external
stdlib collaborators (`json.dumps`, `json.loads`, UTF-8 decoding,
`struct.pack`) are modelled by executable Lean functions with the same
observable behaviour on the inputs the client feeds them.  Network effects are
made explicit: each operation returns, alongside its result, the list of
frames it sent and the receive attempts it performed.
-/

/-- `websocket.STATUS_NORMAL`. -/
def STATUS_NORMAL : Nat := 1000

/-- `websocket.STATUS_ABNORMAL_CLOSED`. -/
def STATUS_ABNORMAL_CLOSED : Nat := 1006

/-- `websocket.ABNF.LENGTH_16` (= 2^16), the exclusive upper bound for a
close status code. -/
def LENGTH_16 : Nat := 65536

/-- `websocket.ABNF.OPCODE_TEXT`. -/
def OPCODE_TEXT : Nat := 1

/-- `websocket.ABNF.OPCODE_BINARY`. -/
def OPCODE_BINARY : Nat := 2

/-- `websocket.ABNF.OPCODE_CLOSE`. -/
def OPCODE_CLOSE : Nat := 8

/-- Model of the Python values that reach the client API: strings, byte
strings, integers, booleans, floats (kept as their literal text), `None`,
and JSON-style containers. -/
inductive PyValue : Type where
  | str (s : String)
  | bytes (bs : List UInt8)
  | int (n : Int)
  | bool (b : Bool)
  | float (lit : String)
  | none
  | list (xs : List PyValue)
  | dict (kvs : List (String × PyValue))
deriving Repr, BEq

/-- Model of Python `str()` on the scalar values the client stringifies
(the `else` branch of `write`, which is reached for values that are not
dict/list/bytes). -/
def pyStr : PyValue → String
  | PyValue.str s => s
  | PyValue.bytes _ => "bytes"
  | PyValue.int n => toString n
  | PyValue.bool b => if b then "True" else "False"
  | PyValue.float lit => lit
  | PyValue.none => "None"
  | PyValue.list _ => "list"
  | PyValue.dict _ => "dict"

/-- Is `b` a UTF-8 continuation byte (`0x80 ≤ b ≤ 0xBF`)? -/
def isContByte (b : UInt8) : Bool := 128 ≤ b.toNat ∧ b.toNat ≤ 191

/-- Strict UTF-8 decoding of a byte list, modelling Python
`str(bs, encoding="utf-8")`: rejects malformed sequences, overlong
encodings and surrogate code points, as CPython does. -/
def utf8DecodeChars : List UInt8 → Option (List Char)
  | [] => some []
  | b :: rest =>
    if b.toNat < 128 then
      (utf8DecodeChars rest).map (fun cs => Char.ofNat b.toNat :: cs)
    else if 194 ≤ b.toNat ∧ b.toNat ≤ 223 then
      match rest with
      | c1 :: rest1 =>
        if isContByte c1 then
          let cp := (b.toNat - 192) * 64 + (c1.toNat - 128)
          (utf8DecodeChars rest1).map (fun cs => Char.ofNat cp :: cs)
        else Option.none
      | [] => Option.none
    else if 224 ≤ b.toNat ∧ b.toNat ≤ 239 then
      match rest with
      | c1 :: c2 :: rest2 =>
        if isContByte c1 ∧ isContByte c2 then
          let cp := (b.toNat - 224) * 4096 + (c1.toNat - 128) * 64 + (c2.toNat - 128)
          if 2048 ≤ cp ∧ ¬ (55296 ≤ cp ∧ cp ≤ 57343) then
            (utf8DecodeChars rest2).map (fun cs => Char.ofNat cp :: cs)
          else Option.none
        else Option.none
      | _ => Option.none
    else if 240 ≤ b.toNat ∧ b.toNat ≤ 244 then
      match rest with
      | c1 :: c2 :: c3 :: rest3 =>
        if isContByte c1 ∧ isContByte c2 ∧ isContByte c3 then
          let cp := (b.toNat - 240) * 262144 + (c1.toNat - 128) * 4096 +
            (c2.toNat - 128) * 64 + (c3.toNat - 128)
          if 65536 ≤ cp ∧ cp ≤ 1114111 then
            (utf8DecodeChars rest3).map (fun cs => Char.ofNat cp :: cs)
          else Option.none
        else Option.none
      | _ => Option.none
    else Option.none

/-- Python `str(bs, encoding="utf-8")` as an `Option`: `none` models a
raised `UnicodeDecodeError`. -/
def utf8Decode (bs : List UInt8) : Option String :=
  (utf8DecodeChars bs).map (fun cs => String.mk cs)

/-- JSON string escaping as `json.dumps` performs it on the characters the
tests exercise: quote, backslash and ASCII control characters are escaped,
other characters pass through. -/
def jsonEscapeChar (c : Char) : String :=
  if c = '"' then "\\\""
  else if c = '\\' then "\\\\"
  else if c = '\n' then "\\n"
  else if c = '\t' then "\\t"
  else if c = '\r' then "\\r"
  else if c.toNat < 32 then "\\u00" ++ String.mk [Char.ofNat (48 + c.toNat / 16),
    Char.ofNat (if c.toNat % 16 < 10 then 48 + c.toNat % 16 else 87 + c.toNat % 16)]
  else String.mk [c]

/-- JSON encoding of a string literal. -/
def jsonEscapeString (s : String) : String :=
  "\"" ++ String.join (s.data.map jsonEscapeChar) ++ "\""

mutual

/-- Model of Python `json.dumps` with default arguments (separators
`", "` and `": "`).  Returns `Option.none` when the value is not JSON
serializable (byte strings), modelling a raised `TypeError`. -/
def jsonDumps : PyValue → Option String
  | PyValue.str s => some (jsonEscapeString s)
  | PyValue.bytes _ => Option.none
  | PyValue.int n => some (toString n)
  | PyValue.bool b => some (if b then "true" else "false")
  | PyValue.float lit => some lit
  | PyValue.none => some "null"
  | PyValue.list xs => (jsonDumpsList xs).map (fun parts => "[" ++ String.intercalate ", " parts ++ "]")
  | PyValue.dict kvs => (jsonDumpsDict kvs).map (fun parts => "\x7b" ++ String.intercalate ", " parts ++ "\x7d")

/-- Encode the elements of a JSON array. -/
def jsonDumpsList : List PyValue → Option (List String)
  | [] => some []
  | x :: xs => do
    let s ← jsonDumps x
    let rest ← jsonDumpsList xs
    pure (s :: rest)

/-- Encode the members of a JSON object. -/
def jsonDumpsDict : List (String × PyValue) → Option (List String)
  | [] => some []
  | (k, v) :: kvs => do
    let s ← jsonDumps v
    let rest ← jsonDumpsDict kvs
    pure ((jsonEscapeString k ++ ": " ++ s) :: rest)

end

/-- A websocket frame payload: text or binary. -/
inductive FramePayload : Type where
  | text (s : String)
  | binary (bs : List UInt8)
deriving Repr, BEq

/-- A websocket frame as handed to `WebSocket.send`: an opcode and a
payload. -/
structure Frame : Type where
  opcode : Nat
  payload : FramePayload
deriving Repr, BEq

/-- The text-payload transformation of `WebsocketClient.write`
(lines 31-36): dict/list values are JSON-encoded, byte strings are decoded
as UTF-8, anything else is stringified.  `Option.none` models a raised
`TypeError`/`UnicodeDecodeError` from the stdlib collaborator. -/
def textTransform : PyValue → Option String
  | PyValue.dict kvs => jsonDumps (PyValue.dict kvs)
  | PyValue.list xs => jsonDumps (PyValue.list xs)
  | PyValue.bytes bs => utf8Decode bs
  | v => some (pyStr v)

namespace WebsocketClient

/-- `WebsocketClient.write(**options)`: with a non-`None` `text` option the
payload is transformed by `textTransform` and sent as one TEXT frame; else
with a non-`None` `binary` option the payload is sent unchanged as one
BINARY frame; else a `ValueError` is raised and nothing is sent.
`Except.ok frames` lists the frames handed to `WebSocket.send` in order;
`Except.error` models a raised exception (nothing sent). -/
def write (text : Option PyValue) (binary : Option (List UInt8)) :
    Except String (List Frame) :=
  match text with
  | some payload =>
    match textTransform payload with
    | some s => Except.ok [⟨OPCODE_TEXT, FramePayload.text s⟩]
    | Option.none => Except.error "UnicodeDecodeError or TypeError"
  | Option.none =>
    match binary with
    | some bs => Except.ok [⟨OPCODE_BINARY, FramePayload.binary bs⟩]
    | Option.none =>
      Except.error "websocket write method miss text or binary. Please check again..."

end WebsocketClient

/-- The `\x7b` character, written by code point to keep brace characters out
of literals. -/
def lbrace : Char := Char.ofNat 123

/-- The `\x7d` character. -/
def rbrace : Char := Char.ofNat 125

/-- Skip JSON whitespace. -/
def jsonSkipWs : List Char → List Char
  | c :: rest =>
    if c = ' ' ∨ c = '\t' ∨ c = '\n' ∨ c = '\r' then jsonSkipWs rest else c :: rest
  | [] => []

/-- Value of a hex digit. -/
def hexDigitVal (c : Char) : Option Nat :=
  if '0' ≤ c ∧ c ≤ '9' then some (c.toNat - 48)
  else if 'a' ≤ c ∧ c ≤ 'f' then some (c.toNat - 87)
  else if 'A' ≤ c ∧ c ≤ 'F' then some (c.toNat - 55)
  else Option.none

/-- Parse the body of a JSON string literal (after the opening quote),
returning the decoded characters and the input after the closing quote. -/
def jsonParseStringBody : List Char → Option (List Char × List Char)
  | [] => Option.none
  | c :: rest =>
    if c = '"' then some ([], rest)
    else if c = '\\' then
      match rest with
      | e :: rest1 =>
        if e = '"' ∨ e = '\\' ∨ e = '/' then
          (jsonParseStringBody rest1).map (fun p => (e :: p.1, p.2))
        else if e = 'n' then (jsonParseStringBody rest1).map (fun p => ('\n' :: p.1, p.2))
        else if e = 't' then (jsonParseStringBody rest1).map (fun p => ('\t' :: p.1, p.2))
        else if e = 'r' then (jsonParseStringBody rest1).map (fun p => ('\r' :: p.1, p.2))
        else if e = 'b' then (jsonParseStringBody rest1).map (fun p => (Char.ofNat 8 :: p.1, p.2))
        else if e = 'f' then (jsonParseStringBody rest1).map (fun p => (Char.ofNat 12 :: p.1, p.2))
        else if e = 'u' then
          match rest1 with
          | h1 :: h2 :: h3 :: h4 :: rest2 =>
            match hexDigitVal h1, hexDigitVal h2, hexDigitVal h3, hexDigitVal h4 with
            | some a, some b, some c3, some d =>
              let cp := a * 4096 + b * 256 + c3 * 16 + d
              if 55296 ≤ cp ∧ cp ≤ 57343 then Option.none
              else (jsonParseStringBody rest2).map (fun p => (Char.ofNat cp :: p.1, p.2))
            | _, _, _, _ => Option.none
          | _ => Option.none
        else Option.none
      | [] => Option.none
    else if c.toNat < 32 then Option.none
    else (jsonParseStringBody rest).map (fun p => (c :: p.1, p.2))

/-- Split a maximal run of decimal digits off the front of the input. -/
def takeDigits : List Char → List Char × List Char
  | c :: rest =>
    if c.isDigit then
      let p := takeDigits rest
      (c :: p.1, p.2)
    else ([], c :: rest)
  | [] => ([], [])

/-- Decimal digits to a natural number. -/
def digitsToNat (ds : List Char) : Nat :=
  ds.foldl (fun acc c => acc * 10 + (c.toNat - 48)) 0

/-- Parse the exponent part of a JSON number, after the `e`/`E` marker
`c`. -/
def jsonParseExpPart (c : Char) (cs : List Char) : Option (List Char × List Char) :=
  let p := match cs with
    | '+' :: r => ((['+'] : List Char), r)
    | '-' :: r => ((['-'] : List Char), r)
    | _ => (([] : List Char), cs)
  let q := takeDigits p.2
  if q.1 = [] then Option.none else some (c :: p.1 ++ q.1, q.2)

/-- Parse a JSON number.  An integer literal becomes `PyValue.int` (Python
`int`); a literal with a fraction or exponent becomes `PyValue.float`
keeping the lexeme. -/
def jsonParseNumber (cs : List Char) : Option (PyValue × List Char) := do
  let (sign, cs1) := match cs with
    | '-' :: r => ((['-'] : List Char), r)
    | _ => (([] : List Char), cs)
  let (ds, cs2) := takeDigits cs1
  if ds = [] then failure
  else if 1 < ds.length ∧ ds.head? = some '0' then failure
  else
    let fr ← match cs2 with
      | '.' :: cs3 =>
        let p := takeDigits cs3
        if p.1 = [] then failure else pure (('.' :: p.1 : List Char), p.2)
      | _ => pure (([] : List Char), cs2)
    let ex ← match fr.2 with
      | c :: cs5 =>
        if c = 'e' ∨ c = 'E' then
          match jsonParseExpPart c cs5 with
          | some q => pure q
          | Option.none => failure
        else pure (([] : List Char), fr.2)
      | [] => pure (([] : List Char), fr.2)
    if fr.1 = [] ∧ ex.1 = [] then
      let n : Int := if sign = [] then Int.ofNat (digitsToNat ds) else - Int.ofNat (digitsToNat ds)
      pure (PyValue.int n, cs2)
    else
      pure (PyValue.float (String.mk (sign ++ ds ++ fr.1 ++ ex.1)), ex.2)

mutual

/-- Fueled parser for a JSON value, modelling `json.loads` grammar with
default options.  Fuel bounds the nesting depth. -/
def jsonParseValue : Nat → List Char → Option (PyValue × List Char)
  | 0, _ => Option.none
  | fuel + 1, cs =>
    match jsonSkipWs cs with
    | [] => Option.none
    | c :: rest =>
      if c = 'n' then
        match rest with
        | 'u' :: 'l' :: 'l' :: r => some (PyValue.none, r)
        | _ => Option.none
      else if c = 't' then
        match rest with
        | 'r' :: 'u' :: 'e' :: r => some (PyValue.bool true, r)
        | _ => Option.none
      else if c = 'f' then
        match rest with
        | 'a' :: 'l' :: 's' :: 'e' :: r => some (PyValue.bool false, r)
        | _ => Option.none
      else if c = '"' then
        (jsonParseStringBody rest).map (fun p => (PyValue.str (String.mk p.1), p.2))
      else if c = '[' then
        match jsonSkipWs rest with
        | ']' :: r => some (PyValue.list [], r)
        | cs2 => (jsonParseItems fuel cs2).map (fun p => (PyValue.list p.1, p.2))
      else if c = lbrace then
        match jsonSkipWs rest with
        | d :: r =>
          if d = rbrace then some (PyValue.dict [], r)
          else (jsonParseMembers fuel (d :: r)).map (fun p => (PyValue.dict p.1, p.2))
        | [] => Option.none
      else jsonParseNumber (c :: rest)

/-- Fueled parser for the comma-separated items of a non-empty JSON
array, consuming the closing bracket. -/
def jsonParseItems : Nat → List Char → Option (List PyValue × List Char)
  | 0, _ => Option.none
  | fuel + 1, cs => do
    let (v, r) ← jsonParseValue fuel cs
    match jsonSkipWs r with
    | ',' :: r2 =>
      let (xs, r3) ← jsonParseItems fuel r2
      pure (v :: xs, r3)
    | ']' :: r2 => pure ([v], r2)
    | _ => failure

/-- Fueled parser for the members of a non-empty JSON object, consuming
the closing brace. -/
def jsonParseMembers : Nat → List Char → Option (List (String × PyValue) × List Char)
  | 0, _ => Option.none
  | fuel + 1, cs =>
    match jsonSkipWs cs with
    | '"' :: r => do
      let (kcs, r1) ← jsonParseStringBody r
      match jsonSkipWs r1 with
      | ':' :: r2 => do
        let (v, r3) ← jsonParseValue fuel r2
        match jsonSkipWs r3 with
        | ',' :: r4 =>
          let (kvs, r5) ← jsonParseMembers fuel r4
          pure ((String.mk kcs, v) :: kvs, r5)
        | d :: r4 =>
          if d = rbrace then pure ([(String.mk kcs, v)], r4) else failure
        | [] => failure
      | _ => failure
    | _ => failure

end

/-- Model of Python `json.loads`: parse one JSON value and require the
rest of the input to be whitespace.  `Option.none` models a raised
`json.decoder.JSONDecodeError`. -/
def jsonLoads (s : String) : Option PyValue := do
  let (v, r) ← jsonParseValue (s.length + 1) s.data
  if jsonSkipWs r = [] then pure v else failure

namespace WebsocketClient

/-- `WebsocketClient.read()` (lines 46-52): one blocking receive yields the
payload `received`; `json.loads` is attempted and a `JSONDecodeError` falls
back to the raw payload, which is returned unchanged. -/
def read (received : String) : PyValue :=
  match jsonLoads received with
  | some v => v
  | Option.none => PyValue.str received

end WebsocketClient

example : WebsocketClient.read "not-json" = PyValue.str "not-json" := by rfl

/-- `struct.pack("!H", n)`: big-endian 16-bit encoding, for `n < 65536`. -/
def packU16 (n : Nat) : List UInt8 := [UInt8.ofNat (n / 256), UInt8.ofNat (n % 256)]

/-- What one call to `WebSocket.recv_frame()` inside the close loop yields:
a frame with an opcode and raw data bytes, or a raised error (e.g. the
socket timing out), which the bare `except` of the loop turns into a
`break`. -/
inductive RecvEvent : Type where
  | frame (opcode : Nat) (data : List UInt8)
  | recvError
deriving Repr, BEq

/-- A log record emitted while classifying the peer close status:
`debugClose` for `logger.debug`, `errorClose` for `logger.error`. -/
inductive LogEvent : Type where
  | debugClose (status : Nat)
  | errorClose (status : Nat)
deriving Repr, BEq

/-- The receive loop of `close_connection` (lines 68-82) over the sequence
of successive `recv_frame()` results; exhausting the list models the
wall-clock timeout of the `while` condition expiring.  Returns the final
`resp_status`, the number of receive attempts performed, and the close
status log records.  Non-close frames are discarded; on a close frame the
status is unpacked, classified and recorded only under the
`isEnabledForError()` guard `errLog`; close-frame data shorter than two
bytes makes `struct.unpack` raise, which the bare `except` turns into a
`break`. -/
def closeRecvLoop (errLog : Bool) : List RecvEvent → Nat × Nat × List LogEvent
  | [] => (STATUS_ABNORMAL_CLOSED, 0, [])
  | RecvEvent.recvError :: _ => (STATUS_ABNORMAL_CLOSED, 1, [])
  | RecvEvent.frame op data :: rest =>
    if op ≠ OPCODE_CLOSE then
      let r := closeRecvLoop errLog rest
      (r.1, r.2.1 + 1, r.2.2)
    else if errLog then
      match data with
      | b0 :: b1 :: _ =>
        let st := b0.toNat * 256 + b1.toNat
        (st, 1,
          if 3000 ≤ st ∧ st ≤ 4999 then [LogEvent.debugClose st]
          else if st ≠ STATUS_NORMAL then [LogEvent.errorClose st]
          else [])
      | _ => (STATUS_ABNORMAL_CLOSED, 1, [])
    else (STATUS_ABNORMAL_CLOSED, 1, [])

/-- Observable outcome of a `close_connection` call that did not raise. -/
structure CloseOutcome : Type where
  /-- The returned `resp_status`. -/
  respStatus : Nat
  /-- Frames handed to `WebSocket.send`, in order. -/
  framesSent : List Frame
  /-- Number of `recv_frame()` calls performed. -/
  recvAttempts : Nat
  /-- Arguments of the successive `sock.settimeout` calls, in order. -/
  sockTimeoutsSet : List (Option Nat)
  /-- Close status log records. -/
  logs : List LogEvent
  /-- `self.client.connected` after the call. -/
  connectedAfter : Bool
  /-- `self.status_code` after the call. -/
  statusCodeAfter : Nat
deriving Repr, BEq

namespace WebsocketClient

/-- `WebsocketClient.close_connection(close_status, timeout)`
(lines 54-90).  `connected` is `self.client.connected` on entry, `errLog`
is `isEnabledForError()`, `sockTimeout0` is `sock.gettimeout()` on entry,
and `events` are the successive `recv_frame()` results delivered before
the wall-clock timeout expires (for a finite `timeout`; exhaustion of
`events` models the `while` condition turning false).  If the handle is
connected, an out-of-range status raises `ValueError` before anything is
sent; otherwise the handle is marked disconnected, one close frame
carrying the packed status is sent, the socket timeout is overridden with
`timeout` for the receive loop and restored to `sockTimeout0` afterwards.
If the handle is not connected nothing at all is done.  Either way
`resp_status` is stored in `self.status_code` and returned. -/
def close_connection (connected : Bool) (errLog : Bool)
    (sockTimeout0 : Option Nat) (events : List RecvEvent)
    (close_status : Int) (timeout : Option Nat) :
    Except String CloseOutcome :=
  if connected then
    if close_status < 0 ∨ (LENGTH_16 : Int) ≤ close_status then
      Except.error "code is invalid range"
    else
      let r := closeRecvLoop errLog events
      Except.ok
        { respStatus := r.1
          framesSent := [⟨OPCODE_CLOSE, FramePayload.binary (packU16 close_status.toNat)⟩]
          recvAttempts := r.2.1
          sockTimeoutsSet := [timeout, sockTimeout0]
          logs := r.2.2
          connectedAfter := false
          statusCodeAfter := r.1 }
  else
    Except.ok
      { respStatus := STATUS_ABNORMAL_CLOSED
        framesSent := []
        recvAttempts := 0
        sockTimeoutsSet := []
        logs := []
        connectedAfter := false
        statusCodeAfter := STATUS_ABNORMAL_CLOSED }

end WebsocketClient

/-- Model of `key.startswith(":")`: does the first character of `s` equal
`':'`? -/
def startsWithColon (s : String) : Bool :=
  match s.data with
  | c :: _ => c = ':'
  | [] => false

/-- The pseudo-header filter of `run_step_websocket_request` (lines 77-79):
keep exactly the entries whose name does not start with `":"`, preserving
order and values. -/
def stripPseudoHeaders (headers : List (String × String)) : List (String × String) :=
  headers.filter (fun kv => !(startsWithColon kv.1))

/-- `str(int(time.time() * 1000))[-6:]`: the last (at most) six digits of
the millisecond timestamp. -/
def millisSuffix (ms : Nat) : String := (toString ms).takeRight 6

/-- The session snapshot stored into `step_result.data` (lines 172-177):
aggregated success plus the per-assertion validation results. -/
structure SessionData : Type where
  success : Bool
  validators : List (String × Bool)
deriving Repr, BEq

/-- The `StepResult` record as populated by `run_step_websocket_request`. -/
structure StepResult : Type where
  name : String
  step_type : String
  success : Bool
  content_size : Nat
  failure_info : Option String
  elapsed : Nat
  export_vars : List (String × String)
  data : SessionData
deriving Repr, BEq

/-- Outcome of `resp_obj.validate(validators, variables_mapping)`: either
all assertions pass, or a `ValidationFailure` is raised carrying the
formatted report exposed as `resp_obj.failures_string`; in both cases
`resp_obj.validation_results` holds the per-assertion results. -/
inductive ValidateOutcome : Type where
  | pass (results : List (String × Bool))
  | fail (failuresString : String) (results : List (String × Bool))
deriving Repr, BEq

/-- The request data handed to `websocket_client.send_request`. -/
structure SentRequest : Type where
  headers : List (String × String)
deriving Repr, BEq

/-- `run_step_websocket_request(runner, step)` (lines 53-180), with the
external collaborators abstracted: template resolution, hooks, logging and
the response wrapper are pure inputs.  `headers` is the resolved header
mapping; the wire headers are the pseudo-header-stripped mapping plus the
injected `HRUN-Websocket-Request-ID` correlation header built from
`caseId` and the millisecond clock `ms`.  `sendError` models an exception
raised inside `websocket_client.send_request` — the source wraps that call
in no handler, so the exception propagates (`Except.error`).  Otherwise
the validation outcome is handled by the `try/except
ValidationFailure/finally` block: a failure is caught locally, and the
`finally` block always populates the session snapshot and elapsed time and
returns the step result together with the request that was sent. -/
def run_step_websocket_request (stepName : String)
    (headers : List (String × String)) (caseId : String) (ms : Nat)
    (sendError : Option String) (exportVars : List (String × String))
    (validation : ValidateOutcome) (elapsed : Nat) :
    Except String (StepResult × SentRequest) :=
  let wireHeaders := stripPseudoHeaders headers ++
    [("HRUN-Websocket-Request-ID", "HRUN-" ++ caseId ++ "-" ++ millisSuffix ms)]
  match sendError with
  | some e => Except.error e
  | Option.none =>
    let p : Bool × Option String × List (String × Bool) :=
      match validation with
      | ValidateOutcome.pass results => (true, Option.none, results)
      | ValidateOutcome.fail fs results => (false, some fs, results)
    Except.ok
      ({ name := stepName
         step_type := "websocket request"
         success := p.1
         content_size := 0
         failure_info := p.2.1
         elapsed := elapsed
         export_vars := exportVars
         data := { success := p.1, validators := p.2.2 } },
       { headers := wireHeaders })

/-- Does the event sequence contain no close frame?  (The scenario of a
peer that never answers the close handshake.) -/
def noCloseFrame (events : List RecvEvent) : Bool :=
  events.all (fun e => match e with
    | RecvEvent.frame op _ => decide (op ≠ OPCODE_CLOSE)
    | RecvEvent.recvError => true)

/-- Claim C1 (amended): for every `close_status` in `[0, 65536)`,
`close_connection` never raises; for any value outside that range on a
Connected handle it raises `ValueError` before any bytes are sent; on a
Disconnected handle it never raises regardless of `close_status`,
performing no I/O and returning the abnormal-closure sentinel. -/
theorem C1_close_status_range (connected errLog : Bool) (sockT tmo : Option Nat)
    (events : List RecvEvent) (cs : Int) :
    (0 ≤ cs → cs < (LENGTH_16 : Int) → ∀ e,
      WebsocketClient.close_connection connected errLog sockT events cs tmo ≠
        Except.error e) ∧
    (¬ (0 ≤ cs ∧ cs < (LENGTH_16 : Int)) →
      WebsocketClient.close_connection true errLog sockT events cs tmo =
        Except.error "code is invalid range") ∧
    (WebsocketClient.close_connection false errLog sockT events cs tmo =
      Except.ok ⟨STATUS_ABNORMAL_CLOSED, [], 0, [], [], false, STATUS_ABNORMAL_CLOSED⟩) := by
  refine ⟨?_, ?_, rfl⟩
  · intro h0 h1 e
    cases connected with
    | false => simp [WebsocketClient.close_connection]
    | true =>
      have hr : ¬ (cs < 0 ∨ (LENGTH_16 : Int) ≤ cs) := by
        simp only [LENGTH_16] at h1 ⊢
        omega
      unfold WebsocketClient.close_connection
      rw [if_pos rfl, if_neg hr]
      simp
  · intro h
    have hr : cs < 0 ∨ (LENGTH_16 : Int) ≤ cs := by
      simp only [LENGTH_16] at h ⊢
      omega
    unfold WebsocketClient.close_connection
    rw [if_pos rfl, if_pos hr]

/-- Witness for C1: status 1000 on a connected handle succeeds; status
70000 on a connected handle raises. -/
theorem C1_close_status_range_witness :
    (WebsocketClient.close_connection true true Option.none [] 1000 (some 3) ≠
      Except.error "code is invalid range") ∧
    WebsocketClient.close_connection true true Option.none [] 70000 (some 3) =
      Except.error "code is invalid range" :=
  ⟨(C1_close_status_range true true Option.none (some 3) [] 1000).1 (by norm_num)
      (by norm_num [LENGTH_16]) "code is invalid range",
   (C1_close_status_range true true Option.none (some 3) [] 70000).2.1
      (by norm_num [LENGTH_16])⟩

/-- Counterexample to C1 as stated: on a Disconnected handle, the
out-of-range status 70000 does not raise — the range check sits inside the
`if self.client.connected` branch, so the call just returns the sentinel. -/
theorem C1_counterexample :
    WebsocketClient.close_connection false true Option.none [] 70000 (some 3) =
      Except.ok ⟨STATUS_ABNORMAL_CLOSED, [], 0, [], [], false, STATUS_ABNORMAL_CLOSED⟩ := rfl

/-- Claim C2: `close_connection` on a handle that is already
Disconnected/Closed performs no send and no receive and returns the
abnormal-closure sentinel `STATUS_ABNORMAL_CLOSED`, for every status code,
logging configuration and peer behaviour. -/
theorem C2_close_idempotent (errLog : Bool) (sockT tmo : Option Nat)
    (events : List RecvEvent) (cs : Int) :
    WebsocketClient.close_connection false errLog sockT events cs tmo =
      Except.ok ⟨STATUS_ABNORMAL_CLOSED, [], 0, [], [], false, STATUS_ABNORMAL_CLOSED⟩ := rfl

/-- Claim C5: `write` raises a `ValueError` and sends nothing when neither
`text` nor `binary` is supplied; with only `binary` it sends exactly one
BINARY frame with the payload unchanged; with only `text` it sends exactly
one TEXT frame whose payload is the dict/list value JSON-encoded, the byte
string UTF-8-decoded, or any other value stringified. -/
theorem C5_write_frames :
    (WebsocketClient.write Option.none Option.none =
      Except.error "websocket write method miss text or binary. Please check again...") ∧
    (∀ bs, WebsocketClient.write Option.none (some bs) =
      Except.ok [⟨OPCODE_BINARY, FramePayload.binary bs⟩]) ∧
    (∀ kvs s, jsonDumps (PyValue.dict kvs) = some s →
      WebsocketClient.write (some (PyValue.dict kvs)) Option.none =
        Except.ok [⟨OPCODE_TEXT, FramePayload.text s⟩]) ∧
    (∀ xs s, jsonDumps (PyValue.list xs) = some s →
      WebsocketClient.write (some (PyValue.list xs)) Option.none =
        Except.ok [⟨OPCODE_TEXT, FramePayload.text s⟩]) ∧
    (∀ bs s, utf8Decode bs = some s →
      WebsocketClient.write (some (PyValue.bytes bs)) Option.none =
        Except.ok [⟨OPCODE_TEXT, FramePayload.text s⟩]) ∧
    (∀ s, WebsocketClient.write (some (PyValue.str s)) Option.none =
      Except.ok [⟨OPCODE_TEXT, FramePayload.text s⟩]) ∧
    (∀ n : Int, WebsocketClient.write (some (PyValue.int n)) Option.none =
      Except.ok [⟨OPCODE_TEXT, FramePayload.text (toString n)⟩]) := by
  refine ⟨rfl, fun bs => rfl, ?_, ?_, ?_, fun s => rfl, fun n => rfl⟩
  · intro kvs s h
    simp [WebsocketClient.write, textTransform, h]
  · intro xs s h
    simp [WebsocketClient.write, textTransform, h]
  · intro bs s h
    simp [WebsocketClient.write, textTransform, h]

/-- Witness for C5: a dict payload is JSON-encoded and a byte payload is
UTF-8-decoded into one TEXT frame. -/
theorem C5_write_frames_witness :
    jsonDumps (PyValue.dict [("a", PyValue.int 1)]) = some "\x7b\"a\": 1\x7d" ∧
    WebsocketClient.write (some (PyValue.dict [("a", PyValue.int 1)])) Option.none =
      Except.ok [⟨OPCODE_TEXT, FramePayload.text "\x7b\"a\": 1\x7d"⟩] ∧
    utf8Decode [104, 105] = some "hi" ∧
    WebsocketClient.write (some (PyValue.bytes [104, 105])) Option.none =
      Except.ok [⟨OPCODE_TEXT, FramePayload.text "hi"⟩] :=
  ⟨rfl, C5_write_frames.2.2.1 _ _ rfl, rfl, C5_write_frames.2.2.2.2.1 _ _ rfl⟩

/-- Claim C6: `read` performs one receive and returns the JSON-decoded
structure when the payload parses as JSON, and the raw text unchanged when
decoding fails; in particular a JSON-object payload yields the decoded
structure and the payload `not-json` yields the literal string. -/
theorem C6_read_json_fallback (payload : String) :
    (WebsocketClient.read "\x7b\"a\":1\x7d" = PyValue.dict [("a", PyValue.int 1)]) ∧
    (WebsocketClient.read "not-json" = PyValue.str "not-json") ∧
    (∀ v, jsonLoads payload = some v → WebsocketClient.read payload = v) ∧
    (jsonLoads payload = Option.none → WebsocketClient.read payload = PyValue.str payload) := by
  refine ⟨rfl, rfl, ?_, ?_⟩
  · intro v h
    simp [WebsocketClient.read, h]
  · intro h
    simp [WebsocketClient.read, h]

/-- Witness for C6: payload `7` decodes to the integer 7, payload `nope`
falls back to the raw string. -/
theorem C6_read_json_fallback_witness :
    WebsocketClient.read "7" = PyValue.int 7 ∧
    WebsocketClient.read "nope" = PyValue.str "nope" :=
  ⟨(C6_read_json_fallback "7").2.2.1 _ rfl, (C6_read_json_fallback "nope").2.2.2 rfl⟩

/-- Claim C7: the orchestrator's header filter removes exactly the entries
whose name starts with `":"` and keeps every other entry unchanged (order
and values included); in particular the spec's example mapping loses only
the `:authority` entry. -/
theorem C7_pseudo_header_strip (headers : List (String × String)) (kv : String × String) :
    (kv ∈ stripPseudoHeaders headers ↔ kv ∈ headers ∧ kv.1.data.head? ≠ some ':') ∧
    stripPseudoHeaders [(":authority", "x"), ("User-Agent", "y")] = [("User-Agent", "y")] := by
  refine ⟨?_, rfl⟩
  simp only [stripPseudoHeaders, List.mem_filter, Bool.not_eq_eq_eq_not, Bool.not_true,
    and_congr_right_iff]
  intro _
  constructor
  · intro h
    cases hd : kv.1.data with
    | nil => simp
    | cons c cs =>
      simp only [startsWithColon, hd] at h
      simp only [hd, Option.some.injEq, ne_eq, List.head?_cons]
      intro hc
      rw [hc] at h
      simp at h
  · intro h
    cases hd : kv.1.data with
    | nil => simp [startsWithColon, hd]
    | cons c cs =>
      simp only [hd, List.head?_cons, ne_eq, Option.some.injEq] at h
      simp [startsWithColon, hd, h]

/-- Claim C9 at the failing input (code bug): on a connected handle the
peer answers the close handshake with status 1000 (bytes `03 E8`), yet the
call returns the peer status only when `isEnabledForError()` is true — with
error logging disabled the assignment `resp_status = recv_status` is
skipped and the abnormal sentinel 1006 is returned instead.  The last two
conjuncts show the 3000-4999 band logged at low severity and other
non-normal codes at high severity, the call returning normally. -/
theorem C9_peer_status_depends_on_logging :
    (WebsocketClient.close_connection true true Option.none
      [RecvEvent.frame OPCODE_CLOSE [3, 232]] 1000 (some 3) =
      Except.ok ⟨1000, [⟨OPCODE_CLOSE, FramePayload.binary [3, 232]⟩], 1,
        [some 3, Option.none], [], false, 1000⟩) ∧
    (WebsocketClient.close_connection true false Option.none
      [RecvEvent.frame OPCODE_CLOSE [3, 232]] 1000 (some 3) =
      Except.ok ⟨STATUS_ABNORMAL_CLOSED, [⟨OPCODE_CLOSE, FramePayload.binary [3, 232]⟩], 1,
        [some 3, Option.none], [], false, STATUS_ABNORMAL_CLOSED⟩) ∧
    (WebsocketClient.close_connection true true Option.none
      [RecvEvent.frame OPCODE_CLOSE [13, 172]] 1000 (some 3) =
      Except.ok ⟨3500, [⟨OPCODE_CLOSE, FramePayload.binary [3, 232]⟩], 1,
        [some 3, Option.none], [LogEvent.debugClose 3500], false, 3500⟩) ∧
    (WebsocketClient.close_connection true true Option.none
      [RecvEvent.frame OPCODE_CLOSE [7, 208]] 1000 (some 3) =
      Except.ok ⟨2000, [⟨OPCODE_CLOSE, FramePayload.binary [3, 232]⟩], 1,
        [some 3, Option.none], [LogEvent.errorClose 2000], false, 2000⟩) :=
  ⟨rfl, rfl, rfl, rfl⟩

/-- Claim C10 (amended): when both `text` and `binary` are supplied
non-`None`, the binary payload is ignored entirely — the call behaves
exactly as the text-only call, never raising the missing-payload
`ValueError`; whenever the text transformation succeeds, exactly one TEXT
frame is sent.  (The call can still raise when the text payload is a byte
string that is not valid UTF-8.) -/
theorem C10_text_precedence (t : PyValue) (b : List UInt8) :
    WebsocketClient.write (some t) (some b) = WebsocketClient.write (some t) Option.none ∧
    WebsocketClient.write (some t) (some b) ≠
      Except.error "websocket write method miss text or binary. Please check again..." ∧
    (∀ s, textTransform t = some s →
      WebsocketClient.write (some t) (some b) =
        Except.ok [⟨OPCODE_TEXT, FramePayload.text s⟩]) := by
  refine ⟨rfl, ?_, ?_⟩
  · cases h : textTransform t <;> simp [WebsocketClient.write, h]
  · intro s h
    simp [WebsocketClient.write, h]

/-- Witness for C10: a string text payload with a binary payload also
present sends exactly the one TEXT frame. -/
theorem C10_text_precedence_witness :
    textTransform (PyValue.str "hello") = some "hello" ∧
    WebsocketClient.write (some (PyValue.str "hello")) (some [1, 2]) =
      Except.ok [⟨OPCODE_TEXT, FramePayload.text "hello"⟩] :=
  ⟨rfl, (C10_text_precedence (PyValue.str "hello") [1, 2]).2.2 "hello" rfl⟩

/-- Counterexample to C10 as stated: with both options supplied and the
text payload being the byte string `0xFF` (not valid UTF-8), `write` does
raise (a `UnicodeDecodeError` from the UTF-8 decode), so "write does not
raise" fails. -/
theorem C10_counterexample :
    WebsocketClient.write (some (PyValue.bytes [255])) (some [65]) =
      Except.error "UnicodeDecodeError or TypeError" := rfl

/-- Helper: the close receive loop leaves `resp_status` at the abnormal
sentinel when no close frame arrives from the peer. -/
theorem closeRecvLoop_no_close (errLog : Bool) (events : List RecvEvent)
    (h : noCloseFrame events = true) :
    (closeRecvLoop errLog events).1 = STATUS_ABNORMAL_CLOSED := by
  induction events with
  | nil => rfl
  | cons e rest ih =>
    cases e with
    | recvError => rfl
    | frame op data =>
      simp only [noCloseFrame, List.all_cons, Bool.and_eq_true, decide_eq_true_eq] at h
      have hrest := ih h.2
      simp [closeRecvLoop, if_pos h.1, hrest]

/-- Claim C8: closing a connected handle while the peer never sends a
close frame (the receive loop sees only non-close frames, a receive error,
or the wall-clock timeout expiring) yields the abnormal-closure sentinel,
and the transport timeout is first overridden with the caller-supplied
value and then restored to the exact value it had before the call. -/
theorem C8_close_timeout (errLog : Bool) (sockT tmo : Option Nat)
    (events : List RecvEvent) (cs : Int) (h0 : 0 ≤ cs)
    (h1 : cs < (LENGTH_16 : Int)) (hnc : noCloseFrame events = true) :
    (WebsocketClient.close_connection true errLog sockT events cs tmo).map
        (fun out => (out.respStatus, out.sockTimeoutsSet)) =
      Except.ok (STATUS_ABNORMAL_CLOSED, [tmo, sockT]) := by
  have hr : ¬ (cs < 0 ∨ (LENGTH_16 : Int) ≤ cs) := by
    simp only [LENGTH_16] at h1 ⊢
    omega
  unfold WebsocketClient.close_connection
  rw [if_pos rfl, if_neg hr]
  simp [Except.map, closeRecvLoop_no_close errLog events hnc]

/-- Witness for C8: a text frame followed by a receive error (socket
timeout) yields the sentinel 1006, with the 30-second transport timeout
overridden by 3 and then restored. -/
theorem C8_close_timeout_witness :
    (WebsocketClient.close_connection true true (some 30)
        [RecvEvent.frame OPCODE_TEXT [], RecvEvent.recvError] 1000 (some 3)).map
        (fun out => (out.respStatus, out.sockTimeoutsSet)) =
      Except.ok (STATUS_ABNORMAL_CLOSED, [some 3, some 30]) :=
  C8_close_timeout true (some 30) (some 3)
    [RecvEvent.frame OPCODE_TEXT [], RecvEvent.recvError] 1000
    (by norm_num) (by norm_num [LENGTH_16]) (by rfl)

/-- Counterexample to C3 as stated: when the protocol client raises a
transport error inside `send_request`, `run_step_websocket_request`
propagates it — the source wraps the call in no handler, so the run yields
the exception instead of a `StepResult` with `success := false`. -/
theorem C3_counterexample :
    run_step_websocket_request "step" [] "cid" 0
      (some "ConnectionError: handshake failed") [] (ValidateOutcome.pass []) 0 =
      Except.error "ConnectionError: handshake failed" := rfl

/-- Claim C3 (amended): a connection or transport error raised by the
protocol client during `send_request` propagates out of
`run_step_websocket_request` uncaught; only when the network operation
succeeds does the orchestrator always return a `StepResult`, and then an
assertion failure is recorded as `success := false` rather than raised. -/
theorem C3_transport_errors_propagate (stepName : String)
    (headers : List (String × String)) (caseId : String) (ms : Nat) (e : String)
    (exportVars : List (String × String)) (validation : ValidateOutcome)
    (fs : String) (results : List (String × Bool)) (elapsed : Nat) :
    (run_step_websocket_request stepName headers caseId ms (some e) exportVars
        validation elapsed = Except.error e) ∧
    (∃ res sent, run_step_websocket_request stepName headers caseId ms Option.none
        exportVars (ValidateOutcome.fail fs results) elapsed = Except.ok (res, sent) ∧
      res.success = false) :=
  ⟨rfl, ⟨_, _, rfl, rfl⟩⟩

/-- Claim C4: a failing assertion raises `ValidationFailure`, which
`run_step_websocket_request` catches locally, returning (not raising) a
`StepResult` with `success := false` and `failure_info` set to the
formatted failure report; in both outcomes the returned result carries the
elapsed time and the session snapshot (aggregated success plus
per-assertion results). -/
theorem C4_validation_failure_caught (stepName : String)
    (headers : List (String × String)) (caseId : String) (ms : Nat)
    (exportVars : List (String × String)) (fs : String)
    (failResults passResults : List (String × Bool)) (elapsed : Nat) :
    (∃ sent, run_step_websocket_request stepName headers caseId ms Option.none exportVars
        (ValidateOutcome.fail fs failResults) elapsed =
      Except.ok ({ name := stepName, step_type := "websocket request", success := false,
                   content_size := 0, failure_info := some fs, elapsed := elapsed,
                   export_vars := exportVars,
                   data := { success := false, validators := failResults } }, sent)) ∧
    (∃ sent, run_step_websocket_request stepName headers caseId ms Option.none exportVars
        (ValidateOutcome.pass passResults) elapsed =
      Except.ok ({ name := stepName, step_type := "websocket request", success := true,
                   content_size := 0, failure_info := Option.none, elapsed := elapsed,
                   export_vars := exportVars,
                   data := { success := true, validators := passResults } }, sent)) :=
  ⟨⟨_, rfl⟩, ⟨_, rfl⟩⟩
